import Mathlib

/-!
Verification of the elapsed-time reconciliation core of `social-timer`
(`src/app.rs`): the pure time-breakdown algorithm (`ElapsedTime`), its
German formatting (`TimeUnit::format_timeunit`, `ElapsedTime::fmt_output`),
the server functions `get_count` / `reset_count` over the single persisted
key `"social_timer_count"`, the `HomePage` reset click handler, and the
`ElapsedTimeDisp` subtraction.

Machine integers: the Rust code works on `u64`. The breakdown algorithm
uses only division and remainder, which never overflow, so it is embedded
over `Nat`; the one place wrap-around semantics matter (the unchecked
subtraction in `ElapsedTimeDisp`) is embedded with an explicit `% 2 ^ 64`.

Effects: the spin key-value store is embedded as an explicit state
(`KVStore`), the fallibility of its operations as explicit boolean / option
parameters (`openOk`, `readFault`, `writeOk`), and a Rust panic (`unwrap` /
`expect`) as a distinguished result constructor.
-/

namespace SocialTimer

/-- `ElapsedTime::SECONDS_IN_YEAR` (365-day year). -/
def SECONDS_IN_YEAR : Nat := 31536000

/-- `ElapsedTime::SECONDS_IN_MONTH` (30-day month). -/
def SECONDS_IN_MONTH : Nat := 2592000

/-- `ElapsedTime::SECONDS_IN_DAY`. -/
def SECONDS_IN_DAY : Nat := 86400

/-- `ElapsedTime::SECONDS_IN_HOUR`. -/
def SECONDS_IN_HOUR : Nat := 3600

/-- The `ElapsedTime` struct of `src/app.rs`. -/
structure ElapsedTime where
  years : Nat
  months : Nat
  days : Nat
  hours : Nat
  minutes : Nat
  seconds : Nat
deriving DecidableEq, Repr

/-- The `TimeUnit` enum of `src/app.rs`. -/
inductive TimeUnit where
  | years
  | months
  | days
  | hours
  | minutes
  | seconds
deriving DecidableEq, Repr

/-- `TimeUnit::format_timeunit`: renders `format!("{}&nbsp;<unit>", value)`,
picking the German singular form exactly when `value == 1`. -/
def TimeUnit.format_timeunit : TimeUnit → Nat → String
  | .years, value =>
      if value == 1 then Nat.repr value ++ "&nbsp;Jahr"
      else Nat.repr value ++ "&nbsp;Jahre"
  | .months, value =>
      if value == 1 then Nat.repr value ++ "&nbsp;Monat"
      else Nat.repr value ++ "&nbsp;Monate"
  | .days, value =>
      if value == 1 then Nat.repr value ++ "&nbsp;Tag"
      else Nat.repr value ++ "&nbsp;Tage"
  | .hours, value =>
      if value == 1 then Nat.repr value ++ "&nbsp;Stunde"
      else Nat.repr value ++ "&nbsp;Stunden"
  | .minutes, value =>
      if value == 1 then Nat.repr value ++ "&nbsp;Minute"
      else Nat.repr value ++ "&nbsp;Minuten"
  | .seconds, value =>
      if value == 1 then Nat.repr value ++ "&nbsp;Sekunde"
      else Nat.repr value ++ "&nbsp;Sekunden"

/-- `ElapsedTime::get_elapsed_time`: cascading fixed-unit breakdown of a
duration in seconds, exactly as written in the source. -/
def ElapsedTime.get_elapsed_time (seconds : Nat) : ElapsedTime :=
  let years := seconds / SECONDS_IN_YEAR
  let months := (seconds % SECONDS_IN_YEAR) / SECONDS_IN_MONTH
  let days :=
    ((seconds % SECONDS_IN_YEAR) % SECONDS_IN_MONTH) / SECONDS_IN_DAY
  let hours := (((seconds % SECONDS_IN_YEAR) % SECONDS_IN_MONTH)
      % SECONDS_IN_DAY)
      / SECONDS_IN_HOUR
  let minutes := ((((seconds % SECONDS_IN_YEAR) % SECONDS_IN_MONTH)
      % SECONDS_IN_DAY)
      % SECONDS_IN_HOUR)
      / 60
  let seconds := ((((seconds % SECONDS_IN_YEAR) % SECONDS_IN_MONTH)
      % SECONDS_IN_DAY)
      % SECONDS_IN_HOUR)
      % 60
  { years := years, months := months, days := days, hours := hours,
    minutes := minutes, seconds := seconds }

/-- `ElapsedTime::fmt_output`: the six rendered units joined by `", "` with
`" und "` before the last one and a terminating period. -/
def ElapsedTime.fmt_output (self : ElapsedTime) : String :=
  TimeUnit.years.format_timeunit self.years ++ ", " ++
  TimeUnit.months.format_timeunit self.months ++ ", " ++
  TimeUnit.days.format_timeunit self.days ++ ", " ++
  TimeUnit.hours.format_timeunit self.hours ++ ", " ++
  TimeUnit.minutes.format_timeunit self.minutes ++ " und " ++
  TimeUnit.seconds.format_timeunit self.seconds ++ "."

/-- The German singular word used by `format_timeunit` for each unit. -/
def singularForm : TimeUnit → String
  | .years => "Jahr"
  | .months => "Monat"
  | .days => "Tag"
  | .hours => "Stunde"
  | .minutes => "Minute"
  | .seconds => "Sekunde"

/-- The German plural word used by `format_timeunit` for each unit. -/
def pluralForm : TimeUnit → String
  | .years => "Jahre"
  | .months => "Monate"
  | .days => "Tage"
  | .hours => "Stunden"
  | .minutes => "Minuten"
  | .seconds => "Sekunden"

/-- C1: for every non-negative duration `d`, reconstructing
`years*31536000 + months*2592000 + days*86400 + hours*3600 + minutes*60
+ seconds` from the breakdown returned by `ElapsedTime::get_elapsed_time d`
gives back exactly `d`. -/
theorem get_elapsed_time_reconstructs (d : Nat) :
    (ElapsedTime.get_elapsed_time d).years * 31536000 +
    (ElapsedTime.get_elapsed_time d).months * 2592000 +
    (ElapsedTime.get_elapsed_time d).days * 86400 +
    (ElapsedTime.get_elapsed_time d).hours * 3600 +
    (ElapsedTime.get_elapsed_time d).minutes * 60 +
    (ElapsedTime.get_elapsed_time d).seconds = d := by
  simp only [ElapsedTime.get_elapsed_time, SECONDS_IN_YEAR, SECONDS_IN_MONTH,
    SECONDS_IN_DAY, SECONDS_IN_HOUR]
  omega

/-- C2: `get_elapsed_time` computes years as `d div 31536000`, then cascades
remainders strictly left-to-right with floor division through months (30
days), days, hours, minutes and the final seconds remainder; in particular
`get_elapsed_time 0` is the all-zero breakdown. -/
theorem get_elapsed_time_cascades (d : Nat) :
    ElapsedTime.get_elapsed_time d =
      { years := d / 31536000,
        months := d % 31536000 / 2592000,
        days := d % 31536000 % 2592000 / 86400,
        hours := d % 31536000 % 2592000 % 86400 / 3600,
        minutes := d % 31536000 % 2592000 % 86400 % 3600 / 60,
        seconds := d % 31536000 % 2592000 % 86400 % 3600 % 60 } ∧
    ElapsedTime.get_elapsed_time 0 =
      { years := 0, months := 0, days := 0, hours := 0, minutes := 0,
        seconds := 0 } := by
  exact ⟨rfl, rfl⟩

/-- C9: the breakdown always satisfies `months ≤ 12`, `days ≤ 29`,
`hours ≤ 23`, `minutes ≤ 59`, `seconds ≤ 59`, and the bound 12 on months is
attained, e.g. at the two ends of the range `31104000 ≤ d ≤ 31535999`. -/
theorem get_elapsed_time_bounds (d : Nat) :
    (ElapsedTime.get_elapsed_time d).months ≤ 12 ∧
    (ElapsedTime.get_elapsed_time d).days ≤ 29 ∧
    (ElapsedTime.get_elapsed_time d).hours ≤ 23 ∧
    (ElapsedTime.get_elapsed_time d).minutes ≤ 59 ∧
    (ElapsedTime.get_elapsed_time d).seconds ≤ 59 ∧
    (ElapsedTime.get_elapsed_time 31104000).months = 12 ∧
    (ElapsedTime.get_elapsed_time 31535999).months = 12 := by
  refine ⟨?_, ?_, ?_, ?_, ?_, by decide, by decide⟩ <;>
    · simp only [ElapsedTime.get_elapsed_time, SECONDS_IN_YEAR,
        SECONDS_IN_MONTH, SECONDS_IN_DAY, SECONDS_IN_HOUR]
      omega

/-- C3: `format_timeunit` renders the value followed by the singular form
exactly when the value is 1 and the plural form otherwise, and `fmt_output`
always renders all six units (zeros included), joined by the fixed
separator `", "` with the conjunction `" und "` before the last unit and a
terminating period. -/
theorem fmt_output_renders_all_units (u : TimeUnit) (v : Nat)
    (b : ElapsedTime) :
    u.format_timeunit v =
      Nat.repr v ++ "&nbsp;" ++
        (if v = 1 then singularForm u else pluralForm u) ∧
    b.fmt_output =
      TimeUnit.years.format_timeunit b.years ++ ", " ++
      TimeUnit.months.format_timeunit b.months ++ ", " ++
      TimeUnit.days.format_timeunit b.days ++ ", " ++
      TimeUnit.hours.format_timeunit b.hours ++ ", " ++
      TimeUnit.minutes.format_timeunit b.minutes ++ " und " ++
      TimeUnit.seconds.format_timeunit b.seconds ++ "." := by
  refine ⟨?_, rfl⟩
  cases u <;>
    · simp only [TimeUnit.format_timeunit, beq_iff_eq, singularForm,
        pluralForm]
      split <;> simp [String.append_assoc]

/-! ## The persisted store and the server functions -/

/-- The key under which the reset epoch is persisted. -/
def counterKey : String := "social_timer_count"

/-- State of the external spin key-value store: one optional value per
string key. The Rust code stores the JSON encoding of a `u64` under
`"social_timer_count"`; since JSON encoding of a `u64` is injective, the
state keeps the decoded integer. -/
def KVStore := String → Option Nat

/-- A store with no keys set. -/
def KVStore.empty : KVStore := fun _ => none

/-- `store.set_json(key, &v)` on a healthy store: overwrite `key`, leave
all other keys untouched. -/
def set_json (st : KVStore) (key : String) (v : Nat) : KVStore :=
  fun k => if k = key then some v else st k

/-- Result of a server function call: `Ok`, `Err` (a `ServerFnError`
surfaced to the caller), or a panic raised by `unwrap` / `expect`. -/
inductive ServerResult where
  | ok (v : Nat)
  | err (e : String)
  | panicked (msg : String)
deriving DecidableEq, Repr

/-- `store.get_json::<u64>("...")`: the backend read or the JSON decode may
fail (`readFault`), otherwise it reports the key's current value. -/
def get_json (st : KVStore) (key : String) (readFault : Option String) :
    Except String (Option Nat) :=
  match readFault with
  | some e => Except.error e
  | none => Except.ok (st key)

/-- `reset_count(counter)`: open the default store and
`set_json("social_timer_count", &counter)`. `writeOk` models whether this
store interaction succeeds (`Store::open_default` and `set_json` failures
are both mapped into a surfaced `ServerFnError` with the store unchanged,
so they are folded into one flag). -/
def reset_count (counter : Nat) (writeOk : Bool) (st : KVStore) :
    ServerResult × KVStore :=
  if writeOk then (.ok counter, set_json st counterKey counter)
  else (.err "store write failed", st)

/-- `get_count(ep)`: open the default store (`openOk`; failure is surfaced
via `?`), read `"social_timer_count"`; on `Ok(Some c)` return `c`, on
`Ok(None)` or `Err(_)` call `reset_count(ep)` — whose failure panics via
`expect("Cannot reset counter")` — and return `ep`. -/
def get_count (ep : Nat) (openOk : Bool) (readFault : Option String)
    (writeOk : Bool) (st : KVStore) : ServerResult × KVStore :=
  if !openOk then (.err "store open failed", st)
  else
    match get_json st counterKey readFault with
    | .ok (some c) => (.ok c, st)
    | .ok none =>
        match reset_count ep writeOk st with
        | (.ok _, st2) => (.ok ep, st2)
        | (_, st2) => (.panicked "Cannot reset counter", st2)
    | .error _ =>
        match reset_count ep writeOk st with
        | (.ok _, st2) => (.ok ep, st2)
        | (_, st2) => (.panicked "Cannot reset counter", st2)

/-! ## The client side: display subtraction and the reset click handler -/

/-- `2 ^ 64`, the modulus of Rust's `u64`. -/
def U64_MOD : Nat := 18446744073709551616

/-- Rust's unchecked (release-mode wrapping) `u64` subtraction. -/
def u64_sub (a b : Nat) : Nat := (a + U64_MOD - b) % U64_MOD

/-- The `ElapsedTimeDisp` component's displayed breakdown:
`ElapsedTime::get_elapsed_time(seconds.get() - last_update)` with the
unchecked `u64` subtraction. -/
def elapsedTimeDisp (count last_update : Nat) : ElapsedTime :=
  ElapsedTime.get_elapsed_time (u64_sub count last_update)

/-- The two client signals the click handler writes: `last_update` (the
locally held reference epoch) and `count`. -/
structure LocalSignals where
  last_update : Nat
  count : Nat
deriving DecidableEq, Repr

/-- Outcome of the `on_click` closure: either both signals were written, or
the `unwrap` on a failed `reset_count` panicked first. -/
inductive ClickOutcome where
  | done (sig : LocalSignals)
  | panicked (sig : LocalSignals)
deriving DecidableEq, Repr

/-- `HomePage`'s `on_click`: reads `current_epoch()` once into a local (the
`now` argument), runs `reset_count(current_epoch).await.unwrap()`, and only
then `set_last_update(current_epoch)` and `set_count(current_epoch)`; a
failed write panics at the `unwrap` before either signal is written. -/
def on_click (now : Nat) (writeOk : Bool) (st : KVStore)
    (sig : LocalSignals) : ClickOutcome × KVStore :=
  match reset_count now writeOk st with
  | (.ok _, st2) => (.done { last_update := now, count := now }, st2)
  | (_, st2) => (.panicked sig, st2)

/-! ## Theorems about the store and client operations -/

/-- C4: when the persisted read is absent (`Ok(None)`) or fails for any
reason (`Err(_)`), `get_count` writes the caller-supplied fallback epoch
into the store and returns it as a success, and no error from the read path
is ever surfaced to the caller (a failed re-initialization write panics at
the `expect`, it does not return the read error). -/
theorem get_count_self_heals (ep : Nat) (readFault : Option String)
    (st : KVStore) (h : readFault.isSome = true ∨ st counterKey = none) :
    (get_count ep true readFault true st).1 = .ok ep ∧
    (get_count ep true readFault true st).2 counterKey = some ep ∧
    ∀ (writeOk : Bool) (e : String),
      (get_count ep true readFault writeOk st).1 ≠ .err e := by
  cases readFault with
  | some e =>
      refine ⟨rfl, by simp [get_count, get_json, reset_count, set_json], ?_⟩
      intro writeOk e'
      cases writeOk <;> simp [get_count, get_json, reset_count]
  | none =>
      rcases h with h | h
      · simp at h
      · refine ⟨?_, ?_, ?_⟩
        · simp [get_count, get_json, reset_count, h]
        · simp [get_count, get_json, reset_count, set_json, h]
        · intro writeOk e'
          cases writeOk <;> simp [get_count, get_json, reset_count, h]

/-- Nonvacuity for C4: on the empty store with a healthy read, `get_count 5`
self-heals to 5. -/
theorem get_count_self_heals_witness :
    ((none : Option String).isSome = true ∨ KVStore.empty counterKey = none)
      ∧
    (get_count 5 true none true KVStore.empty).1 = .ok 5 ∧
    (get_count 5 true none true KVStore.empty).2 counterKey = some 5 := by
  have h : ((none : Option String).isSome = true ∨
      KVStore.empty counterKey = none) := Or.inr rfl
  exact ⟨h, (get_count_self_heals 5 none KVStore.empty h).1,
    (get_count_self_heals 5 none KVStore.empty h).2.1⟩

/-- C5: `reset_count` persists the new epoch under `"social_timer_count"`,
overwriting any prior value and touching no other key, and returns the same
value on success; it fails exactly when the underlying store write fails,
and then the failure is surfaced as an error with the store unchanged. -/
theorem reset_count_persists_or_surfaces (counter : Nat) (st : KVStore) :
    (reset_count counter true st).1 = .ok counter ∧
    (reset_count counter true st).2 counterKey = some counter ∧
    (∀ k, k ≠ counterKey → (reset_count counter true st).2 k = st k) ∧
    (∃ e, (reset_count counter false st).1 = .err e) ∧
    (reset_count counter false st).2 = st := by
  refine ⟨rfl, by simp [reset_count, set_json], ?_, ⟨_, rfl⟩, rfl⟩
  intro k hk
  simp [reset_count, set_json, hk]

/-- Nonvacuity for C5: concrete success and failure of `reset_count 7`. -/
theorem reset_count_persists_or_surfaces_witness :
    (reset_count 7 true KVStore.empty).1 = .ok 7 ∧
    (reset_count 7 true KVStore.empty).2 counterKey = some 7 ∧
    (reset_count 7 false KVStore.empty).2 = KVStore.empty := by
  exact ⟨(reset_count_persists_or_surfaces 7 KVStore.empty).1,
    (reset_count_persists_or_surfaces 7 KVStore.empty).2.1,
    (reset_count_persists_or_surfaces 7 KVStore.empty).2.2.2.2⟩

/-- C6: on a store with no persisted epoch, `get_count F` returns `F` and
leaves the store containing `F`; on a store holding a value `c`, `get_count`
returns `c` and leaves the store untouched whatever the write flag (no
write is performed); hence a second call with any other fallback `F'`
returns `F`, not `F'` — initialization is idempotent. -/
theorem get_count_idempotent_init (F F' : Nat) (st : KVStore)
    (h : st counterKey = none) :
    (get_count F true none true st).1 = .ok F ∧
    (get_count F true none true st).2 counterKey = some F ∧
    (∀ (c : Nat) (st2 : KVStore) (writeOk : Bool),
      st2 counterKey = some c →
      (get_count F' true none writeOk st2).1 = .ok c ∧
      (get_count F' true none writeOk st2).2 = st2) ∧
    (∀ writeOk : Bool,
      (get_count F' true none writeOk
        ((get_count F true none true st).2)).1 = .ok F ∧
      (get_count F' true none writeOk
        ((get_count F true none true st).2)).2 =
        (get_count F true none true st).2) := by
  have hpresent : ∀ (c : Nat) (st2 : KVStore) (writeOk : Bool),
      st2 counterKey = some c →
      (get_count F' true none writeOk st2).1 = .ok c ∧
      (get_count F' true none writeOk st2).2 = st2 := by
    intro c st2 writeOk h2
    constructor <;> simp [get_count, get_json, h2]
  have hsnd : (get_count F true none true st).2 counterKey = some F := by
    simp [get_count, get_json, reset_count, set_json, h]
  refine ⟨by simp [get_count, get_json, reset_count, h], hsnd, hpresent, ?_⟩
  intro writeOk
  exact hpresent F ((get_count F true none true st).2) writeOk hsnd

/-- Nonvacuity for C6: empty store, first fallback 3, second fallback 9
with the write flag off — the second call still answers 3. -/
theorem get_count_idempotent_init_witness :
    KVStore.empty counterKey = none ∧
    (get_count 3 true none true KVStore.empty).1 = .ok 3 ∧
    (get_count 9 true none false
      ((get_count 3 true none true KVStore.empty).2)).1 = .ok 3 := by
  exact ⟨rfl, (get_count_idempotent_init 3 9 KVStore.empty rfl).1,
    ((get_count_idempotent_init 3 9 KVStore.empty rfl).2.2.2 false).1⟩

/-- C7: after a successful `reset_count E`, every later `get_count`, with
any fallback and any write flag, returns `E` and leaves the store alone;
and the spec's end-to-end scenario: `get_count 1000` on the empty store
returns and persists 1000, a 90-second duration breaks down to 0y 0mo 0d 0h
1m 30s, and after `reset_count 1090` a later `get_count` returns 1090. -/
theorem reset_then_get_roundtrip (E F : Nat) (st : KVStore) (w : Bool) :
    (get_count F true none w ((reset_count E true st).2)).1 = .ok E ∧
    (get_count F true none w ((reset_count E true st).2)).2 =
      (reset_count E true st).2 ∧
    (get_count 1000 true none true KVStore.empty).1 = .ok 1000 ∧
    (get_count 1000 true none true KVStore.empty).2 counterKey =
      some 1000 ∧
    ElapsedTime.get_elapsed_time 90 =
      { years := 0, months := 0, days := 0, hours := 0, minutes := 1,
        seconds := 30 } ∧
    (get_count F true none w
      ((reset_count 1090 true
        ((get_count 1000 true none true KVStore.empty).2)).2)).1 =
      .ok 1090 := by
  refine ⟨?_, ?_, rfl, rfl, by decide, ?_⟩ <;>
    simp [get_count, get_json, reset_count, set_json]

/-- C8: the click handler passes the single computed `now` to the store
write; on success both `last_update` and `count` become that `now`, so the
displayed elapsed breakdown is all-zero; on a failed write it panics
visibly with both signals — in particular the reference epoch — unchanged. -/
theorem on_click_waits_for_write (now : Nat) (st : KVStore)
    (sig : LocalSignals) :
    (on_click now true st sig).1 =
      .done { last_update := now, count := now } ∧
    (on_click now true st sig).2 counterKey = some now ∧
    elapsedTimeDisp now now =
      { years := 0, months := 0, days := 0, hours := 0, minutes := 0,
        seconds := 0 } ∧
    (on_click now false st sig).1 = .panicked sig ∧
    (on_click now false st sig).2 = st := by
  have hz : u64_sub now now = 0 := by
    have : now + U64_MOD - now = U64_MOD := by omega
    simp [u64_sub, this]
  refine ⟨rfl, by simp [on_click, reset_count, set_json], ?_, rfl, rfl⟩
  rw [elapsedTimeDisp, hz]
  decide

/-- C10: the `ElapsedTimeDisp` subtraction `seconds.get() - last_update`
is the wrapping `u64` subtraction: it equals the true elapsed duration
exactly when the current count is at least the reference epoch, and when
the stored epoch exceeds the local clock it underflows, wrapping to
`2^64 - (last_update - count)`, which exceeds the count itself. -/
theorem elapsedTimeDisp_underflow (count lu : Nat) (hc : count < U64_MOD)
    (hl : lu < U64_MOD) :
    (lu ≤ count →
      u64_sub count lu = count - lu ∧
      elapsedTimeDisp count lu =
        ElapsedTime.get_elapsed_time (count - lu)) ∧
    (count < lu →
      u64_sub count lu = U64_MOD - (lu - count) ∧
      count < u64_sub count lu) := by
  constructor
  · intro hle
    have hs : u64_sub count lu = count - lu := by
      simp only [u64_sub, U64_MOD] at *
      omega
    exact ⟨hs, by rw [elapsedTimeDisp, hs]⟩
  · intro hlt
    simp only [u64_sub, U64_MOD] at *
    omega

/-- Nonvacuity for C10: at `count = 10`, the subtraction is exact against
epoch 3 and wraps against epoch 20. -/
theorem elapsedTimeDisp_underflow_witness :
    (10 : Nat) < U64_MOD ∧ (3 : Nat) < U64_MOD ∧ (20 : Nat) < U64_MOD ∧
    u64_sub 10 3 = 10 - 3 ∧
    u64_sub 10 20 = U64_MOD - (20 - 10) := by
  exact ⟨by decide, by decide, by decide,
    ((elapsedTimeDisp_underflow 10 3 (by decide) (by decide)).1
      (by decide)).1,
    ((elapsedTimeDisp_underflow 10 20 (by decide) (by decide)).2
      (by decide)).1⟩

end SocialTimer
